import Mathlib

/-!
Shallow embedding of the request broker in `src/api.py` (with the request
data model of `src/data/requests.py`): the token estimator and truncator,
the admission queue, the single-permit concurrency gate, the consumer loop
with its cancellation checks, and the gateway's message construction.

Python strings are modelled as `List Char` (a Python `str` is a sequence of
code points, and slicing `s[:400]`, `len`, `split`, `endswith` act on code
points exactly as `List.take`, `List.length`, `List.splitOn`,
`List.isSuffixOf` act here).
-/

set_option maxRecDepth 16384

/-- Configuration constant `MAX_CONTEXT_TOKENS = 1024` (api.py:17). -/
def MAX_CONTEXT_TOKENS : Nat := 1024

/-- Configuration constant `TIMEOUT_SECONDS = 25` (api.py:18). -/
def TIMEOUT_SECONDS : Nat := 25

/-- Configuration constant `MAX_QUEUE_SIZE = 5` (api.py:19). -/
def MAX_QUEUE_SIZE : Nat := 5

/-- A chat message `{role: ..., content: ...}` as built and consumed by
api.py (a Python dict with exactly these two keys). -/
structure Message where
  role : String
  content : List Char
deriving DecidableEq, Repr

/-- Auxiliary recursion for `ulpExp`, structurally decreasing on a fuel
argument so that the function reduces by computation.  Halving a number `n`
reaches a value below `2 ^ 53` in at most `n` steps, so fuel `n` is always
enough. -/
def ulpExpAux : Nat → Nat → Nat
  | 0, _ => 0
  | fuel + 1, n => if n < 2 ^ 53 then 0 else ulpExpAux fuel (n / 2) + 1

/-- Number of low-order binary digits of `n` that do not fit in the 53-bit
significand of an IEEE-754 double: the smallest `e` with `n < 2 ^ (53 + e)`. -/
def ulpExp (n : Nat) : Nat :=
  ulpExpAux n n

/-- The exact value of the IEEE-754 double `float(n)` for a natural number
`n` (Python's int-to-float conversion): `n` rounded to 53 significant bits,
round-to-nearest, ties-to-even.  For `n < 2 ^ 53` the conversion is exact. -/
def nearestFloat (n : Nat) : Nat :=
  let e := ulpExp n
  let q := n / 2 ^ e
  let r := n % 2 ^ e
  if 2 * r < 2 ^ e then q * 2 ^ e
  else if 2 ^ e < 2 * r then (q + 1) * 2 ^ e
  else (if q % 2 = 0 then q else q + 1) * 2 ^ e

/-- `count_tokens_roughly` (api.py:30-32): `int(char_count / 4.0)`.
`float(char_count)` rounds the length to the nearest double
(`nearestFloat`); division by `4.0` only decrements the exponent and is
exact; `int()` truncates toward zero, which on a non-negative quarter-integer
is floor division of the numerator by 4. -/
def count_tokens_roughly (text : List Char) : Nat :=
  nearestFloat text.length / 4

/-- The per-message cap of api.py:37-39: content longer than 400 code points
is cut to its first 400 (`m['content'] = m['content'][:400]`). -/
def capMessage (m : Message) : Message :=
  if 400 < m.content.length then { m with content := m.content.take 400 } else m

/-- `total_estimated_tokens` (api.py:42):
`sum(count_tokens_roughly(m['content']) for m in messages)`. -/
def total_estimated_tokens (messages : List Message) : Nat :=
  (messages.map (fun m => count_tokens_roughly m.content)).sum

/-- The `while` loop of api.py:43-45 after the first two messages are fixed:
`while total > max_tokens and len(messages) > 2: messages.pop(2)`.
`m0, m1` are the two pinned messages (indices 0 and 1); the argument list is
the tail from index 2 on.  `len(messages) > 2` is exactly "the tail is
nonempty", and `pop(2)` removes the tail's head. -/
def dropWhileOverBudget (m0 m1 : Message) : List Message → Nat → List Message
  | [], _ => []
  | m2 :: rest, max_tokens =>
    if max_tokens < total_estimated_tokens (m0 :: m1 :: m2 :: rest) then
      dropWhileOverBudget m0 m1 rest max_tokens
    else m2 :: rest

/-- `truncate_messages_to_fit_context` (api.py:35-46): cap every message's
content at 400, then repeatedly remove the message at index 2 while the
estimated total exceeds `max_tokens` and more than 2 messages remain. -/
def truncate_messages_to_fit_context (messages : List Message) (max_tokens : Nat) :
    List Message :=
  let capped := messages.map capMessage
  match capped with
  | m0 :: m1 :: rest => m0 :: m1 :: dropWhileOverBudget m0 m1 rest max_tokens
  | short => short

/-! ### Request data model (src/data/requests.py) -/

/-- `ChatMessage` (requests.py:4-6).  The `turn` string is only ever copied
into a message role, so it stays a Lean `String`; `message` is content and
is modelled, like all Python text the code slices or measures, as a list of
code points. -/
structure ChatMessage where
  turn : String
  message : List Char
deriving DecidableEq, Repr

/-- `BotProfile` (requests.py:8-11).  `system_prompt: Optional[str] = ""`:
`none` models an explicit JSON `null`, the pydantic default is `some []`.  -/
structure BotProfile where
  name : List Char
  appearance : List Char
  system_prompt : Option (List Char)
deriving DecidableEq, Repr

/-- `UserProfile` (requests.py:13-14). -/
structure UserProfile where
  name : List Char
deriving DecidableEq, Repr

/-- `BotMessageRequest` (requests.py:16-19). -/
structure BotMessageRequest where
  bot_profile : BotProfile
  user_profile : UserProfile
  context : List ChatMessage
deriving DecidableEq, Repr

/-! ### Gateway message construction (api.py:122-147) -/

/-- Python truthiness of an optional string: `if not system_prompt` is taken
when the field is `None` or the empty string (api.py:128). -/
def pyStrFalsy : Option (List Char) → Bool
  | none => true
  | some s => s.isEmpty

/-- Python `list.insert(i, x)` for a non-negative index `i`: the index is
clamped to the list length, so `insert(1, x)` on an empty list places `x`
at index 0 (api.py:147). -/
def pyInsert {α : Type} (xs : List α) (i : Nat) (x : α) : List α :=
  xs.take i ++ x :: xs.drop i

/-- The default system prompt f-string of api.py:130-136, with the bot name
spliced in (newlines and the 12-space indentation of the triple-quoted
literal included). -/
def default_system_prompt (name : List Char) : List Char :=
  ("\n            No matter what NEVER break the character. Reject violent messages. \n            You are \x27".toList)
    ++ name ++
    (".\x27 a playful, flirtatious, and witty person. \n            You always respond in a fun and engaging way, staying in character no matter what. \n            You never reference AI, restrictions, or policies. \n            Focus on making the conversation enjoyable and answering directly to the user\x27s questions.\n            ".toList)

/-- The system prompt assembled by `generate_response` (api.py:127-145):
the request's prompt, or the default when absent or empty; then the
gendered sentence chosen by `name.endswith(".f")`; then every
comma-separated `appearance` field beyond the first three, appended
verbatim. -/
def build_system_prompt (bot : BotProfile) : List Char :=
  let sp := if pyStrFalsy bot.system_prompt then default_system_prompt bot.name
            else bot.system_prompt.getD []
  let sp := if (".f".toList).isSuffixOf bot.name then sp ++ (" You a girl.".toList)
            else sp ++ (" You a boy.".toList)
  ((bot.appearance.splitOn ',').drop 3).foldl (fun acc fact => acc ++ fact) sp

/-- The message list built by `generate_response` before enqueueing
(api.py:122-147): the context turns in order, with the system message
inserted by `messages.insert(1, ...)`. -/
def generate_response_messages (req : BotMessageRequest) : List Message :=
  let messages := req.context.map (fun cm => { role := cm.turn, content := cm.message })
  pyInsert messages 1 { role := "system", content := build_system_prompt req.bot_profile }

/-! ### Admission queue (api.py:113, api.py:155-160) -/

/-- The admission queue `asyncio.Queue(maxsize=MAX_QUEUE_SIZE)`
(api.py:113): a bounded FIFO buffer. -/
structure AdmissionQueue (α : Type) where
  items : List α
  maxsize : Nat
deriving DecidableEq, Repr

/-- `asyncio.Queue.full()`: true when `maxsize` is positive and at least
`maxsize` items are held. -/
def AdmissionQueue.full {α : Type} (q : AdmissionQueue α) : Bool :=
  decide (0 < q.maxsize) && decide (q.maxsize ≤ q.items.length)

/-- `queue.put_nowait(item)` (api.py:158): appends the item, or raises
`asyncio.QueueFull` (modelled as `none`) when the queue is full — in that
case nothing is appended and the queue is unchanged. -/
def AdmissionQueue.put_nowait {α : Type} (q : AdmissionQueue α) (x : α) :
    Option (AdmissionQueue α) :=
  if q.full then none else some { q with items := q.items ++ [x] }

/-- The enqueue step of `generate_response` (api.py:156-160): `put_nowait`,
with `except asyncio.QueueFull` raising HTTP 503 at once.  Returns the
queue afterwards and the HTTP status raised, if any: on a full queue the
caller gets 503 immediately and the queue is handed back untouched. -/
def gatewayEnqueue {α : Type} (q : AdmissionQueue α) (x : α) :
    AdmissionQueue α × Option Nat :=
  match q.put_nowait x with
  | some q2 => (q2, none)
  | none => (q, some 503)

/-! ### Concurrency gate (api.py:48-63, api.py:114) -/

/-- Permit accounting of `app.state.semaphore` together with the number of
generation-engine calls currently executing. -/
structure GateState where
  permits : Nat
  generationsInFlight : Nat
deriving DecidableEq, Repr

/-- The two observable gate transitions. -/
inductive GateEvent where
  | enterGate
  | exitGate
deriving DecidableEq, Repr

/-- The two transitions of `try_to_truncate_and_generate` that touch the
gate: `async with semaphore` (api.py:50) acquires the single permit before
the engine call (api.py:55) starts, and releases it when the call returns
(normally or by exception).  An acquire finding no free permit suspends the
acquirer, so it changes nothing until a permit is free — `asyncio.Semaphore`
semantics. -/
def gateStep (s : GateState) : GateEvent → GateState
  | .enterGate =>
    if 0 < s.permits then
      { permits := s.permits - 1, generationsInFlight := s.generationsInFlight + 1 }
    else s
  | .exitGate =>
    if 0 < s.generationsInFlight then
      { permits := s.permits + 1, generationsInFlight := s.generationsInFlight - 1 }
    else s

/-- `asyncio.Semaphore(1)` created at startup (api.py:114), no generation
running. -/
def gateInit : GateState := { permits := 1, generationsInFlight := 0 }

/-- The gate state after an arbitrary interleaving of acquire/release
transitions from startup. -/
def gateRun (events : List GateEvent) : GateState := events.foldl gateStep gateInit

/-! ### Engine answers and the worker loop (api.py:48-107) -/

/-- `choice['message']` (api.py:72-73): a dict whose `content` key may be
missing (Python then raises `KeyError`). -/
structure ChoiceMessage where
  content : Option (List Char)
deriving DecidableEq, Repr

/-- One element of `answer['choices']`; the `message` key may be absent
(`if 'message' in choice`, api.py:72). -/
structure Choice where
  message : Option ChoiceMessage
deriving DecidableEq, Repr

/-- The shape of a value returned by `llm.create_chat_completion`, as far as
api.py:65-74 inspects it: a dict whose optional `choices` key holds a list
of choices (`answer.get('choices', [])`), or not a dict at all. -/
inductive EngineValue where
  | dict (choices : Option (List Choice))
  | nonDict
deriving DecidableEq, Repr

/-- The engine call as the worker observes it: it either raises or returns
a value. -/
inductive EngineAnswer where
  | raises (msg : List Char)
  | returns (value : EngineValue)
deriving DecidableEq, Repr

/-- The generation failures surfaced by `try_to_truncate_and_generate`: the
engine raised; the answer was not a dict (api.py:65-67); or a choice's
`message` dict lacks `content`, a `KeyError` at api.py:73.  All three are
caught at api.py:76 and re-raised as HTTP 500 whose detail string describes
the cause (`f"Error during message generation: {str(e)}"`). -/
inductive GenFailure where
  | engineRaised (msg : List Char)
  | unexpectedResponseType
  | missingContentKey
deriving DecidableEq, Repr

/-- The concatenation loop of api.py:69-73: choices without a `message` key
are skipped; a present `message` without `content` raises `KeyError`, which
aborts the loop and is caught by the handler at api.py:76. -/
def collectResponse : List Choice → Except GenFailure (List Char)
  | [] => .ok []
  | c :: rest =>
    match c.message with
    | none => collectResponse rest
    | some md =>
      match md.content with
      | none => .error .missingContentKey
      | some s => (collectResponse rest).map (fun r => s ++ r)

/-- `try_to_truncate_and_generate` (api.py:48-78) with the engine as an
explicit function (the gate acquisition around it is accounted by
`gateStep`): truncate, call the engine on the truncated messages, reject a
non-dict answer, concatenate the choices' texts; each failure is caught at
api.py:76 and surfaced as a generation error. -/
def try_to_truncate_and_generate (messages : List Message)
    (engine : List Message → EngineAnswer) : Except GenFailure (List Char) :=
  match engine (truncate_messages_to_fit_context messages MAX_CONTEXT_TOKENS) with
  | .raises m => .error (.engineRaised m)
  | .returns .nonDict => .error .unexpectedResponseType
  | .returns (.dict choices) => collectResponse (choices.getD [])

/-- The terminal states of a request's `asyncio.Future`, plus `pending`:
created pending by the gateway (api.py:153), resolved or failed by the
worker (api.py:98, api.py:103), cancelled by the gateway on timeout
(api.py:169). -/
inductive HandleState where
  | pending
  | resolved (value : List Char)
  | failed (failure : GenFailure)
  | cancelled
deriving DecidableEq, Repr

/-- A queued work item `{'messages': ..., 'future': ...}` (api.py:156),
carrying the cancellation state its future is observed in by the worker's
checks.  (Executions where cancellation lands between the worker's two
checks are covered by the event-trace model `requestStep` below.) -/
structure WorkItem where
  messages : List Message
  cancelled : Bool
deriving DecidableEq, Repr

/-- One iteration of `consumer` (api.py:83-107) for a dequeued item: a
future already cancelled at dequeue time is skipped without invoking the
engine (api.py:90-93) and stays cancelled; otherwise the item is processed
and the future resolved with the response (api.py:97-98) or failed with the
generation error (api.py:101-103). -/
def processItem (engine : List Message → EngineAnswer) (item : WorkItem) :
    HandleState :=
  if item.cancelled then .cancelled
  else
    match try_to_truncate_and_generate item.messages engine with
    | .ok response => .resolved response
    | .error f => .failed f

/-- The consumer loop over successive queue items: `while True` at
api.py:83 with every failure caught per item (api.py:101-105) and
`queue.task_done()` in `finally`, so each item is processed independently
and the loop never exits. -/
def consumer (engine : List Message → EngineAnswer) (items : List WorkItem) :
    List HandleState :=
  items.map (processItem engine)

/-! ### Per-request event model (api.py:89-105, api.py:162-173) -/

/-- The caller-facing outcome of one `generate_response` invocation:
`{"response": text}`, HTTP 408 after a timeout (api.py:166-170), or
HTTP 500 carrying the generation failure (api.py:171-173). -/
inductive GatewayOutcome where
  | success (text : List Char)
  | timeout408
  | internalError (f : GenFailure)
deriving DecidableEq, Repr

/-- The four events that can touch one request's future and outcome, in any
interleaving the cooperative scheduler allows. -/
inductive GwEvent where
  | timeoutFires
  | resultArrives
  | workerSetResult (v : List Char)
  | workerSetException (f : GenFailure)
deriving DecidableEq, Repr

/-- One request's shared state: its future and what the caller returned. -/
structure RequestState where
  handle : HandleState
  outcome : Option GatewayOutcome
deriving DecidableEq, Repr

/-- One scheduler step on a request's state.
* `timeoutFires`: `asyncio.wait_for` hits the deadline while the future is
  still pending and the caller still waiting — the future is cancelled and
  the caller returns HTTP 408 (api.py:166-170).
* `resultArrives`: the await completes on a terminal future and the caller
  returns the response or the HTTP 500 (api.py:164-165, api.py:171-173).
* `workerSetResult` / `workerSetException`: the worker's terminal write,
  guarded by `if not future.cancelled()` (api.py:97, api.py:102) — on a
  cancelled future it writes nothing; a pending future becomes resolved or
  failed (a future is written at most once, single-assignment). -/
def requestStep (s : RequestState) : GwEvent → RequestState
  | .timeoutFires =>
    if s.handle = .pending ∧ s.outcome = none then
      { handle := .cancelled, outcome := some .timeout408 }
    else s
  | .resultArrives =>
    match s.handle, s.outcome with
    | .resolved v, none => { s with outcome := some (.success v) }
    | .failed f, none => { s with outcome := some (.internalError f) }
    | _, _ => s
  | .workerSetResult v =>
    if s.handle = .cancelled then s
    else if s.handle = .pending then { s with handle := .resolved v } else s
  | .workerSetException f =>
    if s.handle = .cancelled then s
    else if s.handle = .pending then { s with handle := .failed f } else s

/-- A fresh request: pending future (api.py:153), caller still waiting. -/
def requestInit : RequestState := { handle := .pending, outcome := none }

/-- The request state after any interleaving of events. -/
def requestRun (events : List GwEvent) : RequestState :=
  events.foldl requestStep requestInit

/-- A test-stub engine exercising each of the worker's answer shapes: it
raises on the empty conversation; returns a non-dict for the `u2` turn; for
the `u3` turn returns a dict whose only choice has a `message` lacking
`content`; and otherwise returns a dict whose first choice has no `message`
key and whose second carries the text `ok`. -/
def scenarioEngine : List Message → EngineAnswer := fun msgs =>
  if msgs = [] then .raises ("boom".toList)
  else if msgs = [⟨"u2", []⟩] then .returns .nonDict
  else if msgs = [⟨"u3", []⟩] then .returns (.dict (some [⟨some ⟨none⟩⟩]))
  else .returns (.dict (some [⟨none⟩, ⟨some ⟨some ("ok".toList)⟩⟩]))

/-! ### Lemmas about the truncator -/

lemma capMessage_content_le (m : Message) : (capMessage m).content.length ≤ 400 := by
  by_cases h : 400 < m.content.length
  · simp [capMessage, h, List.length_take]
  · simp [capMessage, h]
    omega

lemma capMessage_of_le (m : Message) (h : m.content.length ≤ 400) : capMessage m = m := by
  unfold capMessage
  rw [if_neg (by omega)]

lemma capMessage_idem (m : Message) : capMessage (capMessage m) = capMessage m :=
  capMessage_of_le _ (capMessage_content_le m)

lemma dropWhileOverBudget_eq_drop (m0 m1 : Message) (tail : List Message) (b : Nat) :
    ∃ k, dropWhileOverBudget m0 m1 tail b = tail.drop k := by
  induction tail with
  | nil => exact ⟨0, rfl⟩
  | cons m2 rest ih =>
    by_cases h : b < total_estimated_tokens (m0 :: m1 :: m2 :: rest)
    · obtain ⟨k, hk⟩ := ih
      exact ⟨k + 1, by simp [dropWhileOverBudget, h, hk]⟩
    · exact ⟨0, by simp [dropWhileOverBudget, h]⟩

lemma dropWhileOverBudget_post (m0 m1 : Message) (tail : List Message) (b : Nat) :
    dropWhileOverBudget m0 m1 tail b = [] ∨
      total_estimated_tokens (m0 :: m1 :: dropWhileOverBudget m0 m1 tail b) ≤ b := by
  induction tail with
  | nil => exact Or.inl rfl
  | cons m2 rest ih =>
    by_cases h : b < total_estimated_tokens (m0 :: m1 :: m2 :: rest)
    · simpa [dropWhileOverBudget, h] using ih
    · right
      simp only [dropWhileOverBudget, if_neg h]
      omega

lemma truncate_of_short (messages : List Message) (b : Nat)
    (h : messages.length ≤ 2) :
    truncate_messages_to_fit_context messages b = messages.map capMessage := by
  unfold truncate_messages_to_fit_context
  match hm : messages, h with
  | [], _ => rfl
  | [m], _ => rfl
  | [m, m'], _ => simp [dropWhileOverBudget]

lemma truncate_characterization (messages : List Message) (b : Nat) :
    ∃ k, truncate_messages_to_fit_context messages b =
      (messages.map capMessage).take 2 ++ (messages.map capMessage).drop (2 + k) := by
  unfold truncate_messages_to_fit_context
  cases hc : messages.map capMessage with
  | nil => exact ⟨0, by simp⟩
  | cons m0 t =>
    cases t with
    | nil => exact ⟨0, by simp⟩
    | cons m1 rest =>
      obtain ⟨k, hk⟩ := dropWhileOverBudget_eq_drop m0 m1 rest b
      refine ⟨k, ?_⟩
      simp only [hk, List.take, List.drop]
      rw [show 2 + k = k + 1 + 1 by omega]
      simp [List.drop_succ_cons]

lemma mem_truncate {m : Message} {messages : List Message} {b : Nat}
    (h : m ∈ truncate_messages_to_fit_context messages b) :
    m ∈ messages.map capMessage := by
  obtain ⟨k, hk⟩ := truncate_characterization messages b
  rw [hk] at h
  rcases List.mem_append.1 h with h | h
  · exact List.take_subset _ _ h
  · exact List.drop_subset _ _ h

lemma map_capMessage_eq_self {l : List Message} (h : ∀ m ∈ l, capMessage m = m) :
    l.map capMessage = l := by
  induction l with
  | nil => rfl
  | cons x xs ih =>
    simp only [List.map_cons]
    rw [h x (List.mem_cons_self x xs), ih (fun m hm => h m (List.mem_cons_of_mem x hm))]

lemma truncate_post (messages : List Message) (b : Nat) :
    total_estimated_tokens (truncate_messages_to_fit_context messages b) ≤ b ∨
      (truncate_messages_to_fit_context messages b).length ≤ 2 := by
  unfold truncate_messages_to_fit_context
  cases hc : messages.map capMessage with
  | nil => right; simp
  | cons m0 t =>
    cases t with
    | nil => right; simp
    | cons m1 rest =>
      rcases dropWhileOverBudget_post m0 m1 rest b with h | h
      · right; simp [h]
      · left; exact h

/-! ### Claim theorems about the truncator -/

/-- C5: every message in the output of `truncate_messages_to_fit_context`
has content of at most 400 characters, for every conversation and every
budget — the per-message hard cap is applied to all messages before any
budget computation, and the budget loop only removes whole messages. -/
theorem c5_per_message_cap (messages : List Message) (max_tokens : Nat) :
    ∀ m ∈ truncate_messages_to_fit_context messages max_tokens,
      m.content.length ≤ 400 := by
  intro m hm
  obtain ⟨m', _, rfl⟩ := List.mem_map.1 (mem_truncate hm)
  exact capMessage_content_le m'

theorem c5_per_message_cap_witness :
    (⟨"user", List.replicate 400 'a'⟩ : Message) ∈
      truncate_messages_to_fit_context [⟨"user", List.replicate 500 'a'⟩] 0 ∧
    (Message.mk "user" (List.replicate 400 'a')).content.length ≤ 400 :=
  ⟨by decide,
    c5_per_message_cap [⟨"user", List.replicate 500 'a'⟩] 0
      ⟨"user", List.replicate 400 'a'⟩ (by decide)⟩

/-- C6 counterexample: the claim says that on a conversation of at most 2
messages the output has "the same messages at the same positions as the
input".  The per-message cap still rewrites contents longer than 400
characters, so a single 401-character message comes back changed. -/
theorem c6_counterexample :
    truncate_messages_to_fit_context [⟨"user", List.replicate 401 'a'⟩] 1024 ≠
      [⟨"user", List.replicate 401 'a'⟩] := by
  decide

/-- C6 (amended): on at most 2 messages `truncate` removes nothing — the
output is exactly the input with each content capped at 400 characters (so
positions and count are preserved, but an over-long content is shortened);
and for every conversation the capped messages at indices 0 and 1 are
preserved, removals happening only at index 2 or beyond (the output is the
first two capped messages followed by a suffix of the remaining capped
messages). -/
theorem c6_pinned_indices (messages : List Message) (b : Nat) :
    (messages.length ≤ 2 →
      truncate_messages_to_fit_context messages b = messages.map capMessage) ∧
    (truncate_messages_to_fit_context messages b).take 2 =
      (messages.map capMessage).take 2 ∧
    ∃ k, truncate_messages_to_fit_context messages b =
      (messages.map capMessage).take 2 ++ (messages.map capMessage).drop (2 + k) := by
  obtain ⟨k, hk⟩ := truncate_characterization messages b
  refine ⟨truncate_of_short messages b, ?_, k, hk⟩
  rw [hk, List.take_append_eq_append_take, List.take_take]
  by_cases hl : 2 ≤ (messages.map capMessage).length
  · have h2 : ((messages.map capMessage).take 2).length = 2 := by
      rw [List.length_take]
      omega
    simp [h2]
  · have h0 : (messages.map capMessage).drop (2 + k) = [] :=
      List.drop_eq_nil_of_le (by omega)
    simp [h0]

theorem c6_pinned_indices_witness :
    truncate_messages_to_fit_context [⟨"user", ['a']⟩] 0 =
      [(⟨"user", ['a']⟩ : Message)].map capMessage :=
  (c6_pinned_indices [⟨"user", ['a']⟩] 0).1 (by decide)

/-- C9: the truncation loop terminates with a result no longer than the
input; on exit either the estimated total fits the budget or at most 2
messages remain (the budget violation is tolerated at the 2-message floor,
the function returning anyway); and each iteration taken while over budget
with more than 2 messages strictly reduces the message count by removing
the message at index 2. -/
theorem c9_loop_terminates (messages : List Message) (max_tokens : Nat)
    (m0 m1 m2 : Message) (rest : List Message)
    (hover : max_tokens < total_estimated_tokens (m0 :: m1 :: m2 :: rest)) :
    (truncate_messages_to_fit_context messages max_tokens).length ≤ messages.length ∧
    (total_estimated_tokens (truncate_messages_to_fit_context messages max_tokens) ≤
        max_tokens ∨
      (truncate_messages_to_fit_context messages max_tokens).length ≤ 2) ∧
    dropWhileOverBudget m0 m1 (m2 :: rest) max_tokens =
      dropWhileOverBudget m0 m1 rest max_tokens ∧
    rest.length < (m2 :: rest).length := by
  refine ⟨?_, truncate_post messages max_tokens, ?_, by simp⟩
  · obtain ⟨k, hk⟩ := truncate_characterization messages max_tokens
    rw [hk]
    have hlen : (messages.map capMessage).length = messages.length := List.length_map _ _
    simp [List.length_append, List.length_take, List.length_drop, hlen]
    omega
  · simp [dropWhileOverBudget, hover]

theorem c9_loop_terminates_witness :
    0 < total_estimated_tokens
        [⟨"user", ['a', 'a', 'a', 'a']⟩, ⟨"user", ['a', 'a', 'a', 'a']⟩,
          ⟨"user", ['a', 'a', 'a', 'a']⟩] ∧
    ((truncate_messages_to_fit_context [] 0).length ≤ ([] : List Message).length ∧
      (total_estimated_tokens (truncate_messages_to_fit_context [] 0) ≤ 0 ∨
        (truncate_messages_to_fit_context [] 0).length ≤ 2) ∧
      dropWhileOverBudget ⟨"user", ['a', 'a', 'a', 'a']⟩ ⟨"user", ['a', 'a', 'a', 'a']⟩
          [⟨"user", ['a', 'a', 'a', 'a']⟩] 0 =
        dropWhileOverBudget ⟨"user", ['a', 'a', 'a', 'a']⟩ ⟨"user", ['a', 'a', 'a', 'a']⟩
          [] 0 ∧
      ([] : List Message).length < [(⟨"user", ['a', 'a', 'a', 'a']⟩ : Message)].length) :=
  ⟨by decide,
    c9_loop_terminates [] 0 ⟨"user", ['a', 'a', 'a', 'a']⟩ ⟨"user", ['a', 'a', 'a', 'a']⟩
      ⟨"user", ['a', 'a', 'a', 'a']⟩ [] (by decide)⟩

/-- C10: `truncate` is idempotent — applying it a second time with the same
budget to its own output changes nothing: the output contents are already
capped at 400, and on exit the estimated total either fits the budget or
the output is already at the 2-message floor, so neither phase fires
again. -/
theorem c10_truncate_idempotent (messages : List Message) (b : Nat) :
    truncate_messages_to_fit_context (truncate_messages_to_fit_context messages b) b =
      truncate_messages_to_fit_context messages b := by
  have hfix : ∀ m ∈ truncate_messages_to_fit_context messages b, capMessage m = m := by
    intro m hm
    obtain ⟨m', _, rfl⟩ := List.mem_map.1 (mem_truncate hm)
    exact capMessage_idem m'
  have hcap : (truncate_messages_to_fit_context messages b).map capMessage =
      truncate_messages_to_fit_context messages b := map_capMessage_eq_self hfix
  have hpost := truncate_post messages b
  generalize hr : truncate_messages_to_fit_context messages b = r at hcap hpost ⊢
  match r, hcap, hpost with
  | [], hcap, _ => rw [truncate_of_short _ _ (by simp)]; exact hcap
  | [m0], hcap, _ => rw [truncate_of_short _ _ (by simp)]; exact hcap
  | [m0, m1], hcap, _ => rw [truncate_of_short _ _ (by simp)]; exact hcap
  | m0 :: m1 :: m2 :: rest, hcap, hpost =>
    have htot : total_estimated_tokens (m0 :: m1 :: m2 :: rest) ≤ b := by
      rcases hpost with h | h
      · exact h
      · simp at h
    unfold truncate_messages_to_fit_context
    rw [hcap]
    simp [dropWhileOverBudget, Nat.not_lt.2 htot]

/-! ### The token estimate versus floor division (C8) -/

lemma ulpExpAux_succ (fuel n : Nat) :
    ulpExpAux (fuel + 1) n = if n < 2 ^ 53 then 0 else ulpExpAux fuel (n / 2) + 1 := rfl

lemma ulpExp_of_lt (n : Nat) (h : n < 2 ^ 53) : ulpExp n = 0 := by
  cases n with
  | zero => rfl
  | succ m =>
    show ulpExpAux (m + 1) (m + 1) = 0
    rw [ulpExpAux_succ, if_pos h]

lemma nearestFloat_of_lt (n : Nat) (h : n < 2 ^ 53) : nearestFloat n = n := by
  simp [nearestFloat, ulpExp_of_lt n h, Nat.mod_one]

/-- C8 counterexample: `int(len(text) / 4.0)` does not agree with floor
division by 4 for every input length.  At length `2 ^ 53 + 3` the
int-to-float conversion rounds (ties-to-even) to `2 ^ 53 + 4`, so the
implementation yields `2 ^ 51 + 1` while `floor(len / 4)` is `2 ^ 51`. -/
theorem c8_counterexample :
    count_tokens_roughly (List.replicate (2 ^ 53 + 3) 'a') ≠
      (List.replicate (2 ^ 53 + 3) 'a').length / 4 := by
  have hlen : (List.replicate (2 ^ 53 + 3) 'a').length = 2 ^ 53 + 3 :=
    List.length_replicate _ _
  have hdef : ∀ text : List Char,
      count_tokens_roughly text = nearestFloat text.length / 4 := fun _ => rfl
  have h3 : (2 : Nat) ^ 53 + 3 = 9007199254740995 := by norm_num
  have step1 : ulpExp 9007199254740995 =
      ulpExpAux 9007199254740994 4503599627370497 + 1 := by
    show ulpExpAux 9007199254740995 9007199254740995 = _
    rw [show (9007199254740995 : Nat) = 9007199254740994 + 1 from by norm_num]
    rw [ulpExpAux_succ]
    rw [if_neg (by norm_num)]
  have step2 : ulpExpAux 9007199254740994 4503599627370497 = 0 := by
    rw [show (9007199254740994 : Nat) = 9007199254740993 + 1 from by norm_num]
    rw [ulpExpAux_succ]
    rw [if_pos (by norm_num)]
  have hu : ulpExp 9007199254740995 = 1 := by rw [step1, step2]
  have hnf : nearestFloat 9007199254740995 = 9007199254740996 := by
    simp only [nearestFloat, hu]
    norm_num
  rw [hdef, hlen, h3, hnf]
  norm_num

/-- C8 (amended): for every text whose length is below `2 ^ 53` — every
length a real machine can hold — the estimator returns exactly
`floor(len(text) / 4)`: the conversion to double is exact there, division
by `4.0` is exact, and `int()` truncation is floor division. -/
theorem c8_token_estimate (text : List Char) (h : text.length < 2 ^ 53) :
    count_tokens_roughly text = text.length / 4 := by
  unfold count_tokens_roughly
  rw [nearestFloat_of_lt _ h]

theorem c8_token_estimate_witness :
    ("abcdefgh".toList.length < 2 ^ 53) ∧
    count_tokens_roughly ("abcdefgh".toList) = "abcdefgh".toList.length / 4 :=
  ⟨by decide, c8_token_estimate ("abcdefgh".toList) (by decide)⟩

/-! ### The system message's position (C7) -/

lemma truncate_getElem?_one (l : List Message) (b : Nat) :
    (truncate_messages_to_fit_context l b)[1]? = (l.map capMessage)[1]? := by
  obtain ⟨k, hk⟩ := truncate_characterization l b
  rw [hk]
  cases hc : l.map capMessage with
  | nil => simp
  | cons x t =>
    cases t with
    | nil =>
      have hd : ([x] : List Message).drop (2 + k) = [] :=
        List.drop_eq_nil_of_le (by simp; omega)
      simp [hd]
    | cons y ys => simp

/-- C7 counterexample: the claim places the inserted system message at
index 1 for every inbound request.  `messages.insert(1, ...)` on the empty
message list of a request with empty `context` clamps the index, so the
system message lands at index 0 and nothing is at index 1. -/
theorem c7_counterexample :
    generate_response_messages
        ⟨⟨"Bob".toList, [], some ("be nice".toList)⟩, ⟨"u".toList⟩, []⟩ =
      [⟨"system", ("be nice You a boy.".toList)⟩] := by
  decide

/-- C7 (amended): for every request with a nonempty `context`, exactly one
system message is inserted, at index 1 (after the first context message),
and truncation at any budget never removes it — index 1 of the truncated
list still holds it (content capped at 400).  (For an empty `context` the
insert clamps and the system message sits alone at index 0.) -/
theorem c7_system_message_index_one (req : BotMessageRequest) (b : Nat)
    (h : req.context ≠ []) :
    (generate_response_messages req)[1]? =
      some ⟨"system", build_system_prompt req.bot_profile⟩ ∧
    (truncate_messages_to_fit_context (generate_response_messages req) b)[1]? =
      some (capMessage ⟨"system", build_system_prompt req.bot_profile⟩) := by
  obtain ⟨c, cs, hc⟩ : ∃ c cs, req.context = c :: cs := by
    cases hcc : req.context with
    | nil => exact absurd hcc h
    | cons c cs => exact ⟨c, cs, rfl⟩
  have h1 : generate_response_messages req =
      { role := c.turn, content := c.message } ::
        { role := "system", content := build_system_prompt req.bot_profile } ::
        cs.map (fun cm => { role := cm.turn, content := cm.message }) := by
    unfold generate_response_messages pyInsert
    rw [hc]
    simp
  constructor
  · rw [h1]
    simp
  · rw [truncate_getElem?_one, h1]
    simp

theorem c7_system_message_index_one_witness :
    (generate_response_messages
        ⟨⟨"Bob".toList, [], some ("be nice".toList)⟩, ⟨"u".toList⟩,
          [⟨"user", "hi".toList⟩]⟩)[1]? =
      some ⟨"system",
        build_system_prompt ⟨"Bob".toList, [], some ("be nice".toList)⟩⟩ ∧
    (truncate_messages_to_fit_context
        (generate_response_messages
          ⟨⟨"Bob".toList, [], some ("be nice".toList)⟩, ⟨"u".toList⟩,
            [⟨"user", "hi".toList⟩]⟩) 0)[1]? =
      some (capMessage ⟨"system",
        build_system_prompt ⟨"Bob".toList, [], some ("be nice".toList)⟩⟩) :=
  c7_system_message_index_one
    ⟨⟨"Bob".toList, [], some ("be nice".toList)⟩, ⟨"u".toList⟩,
      [⟨"user", "hi".toList⟩]⟩ 0 (by decide)

/-! ### The admission queue rejects when full (C3) -/

/-- C3: an enqueue attempt on a queue already holding `maxsize` items
(capacity `N > 0`, default `MAX_QUEUE_SIZE = 5`) fails at once —
`put_nowait` raises `QueueFull` without appending anything, and the gateway
turns that into an immediate HTTP 503, handing the queue back unchanged.
(`put_nowait` never suspends: it is the non-blocking enqueue.) -/
theorem c3_full_queue_rejects (α : Type) (q : AdmissionQueue α) (x : α)
    (hN : 0 < q.maxsize) (hfull : q.items.length = q.maxsize) :
    q.put_nowait x = none ∧ gatewayEnqueue q x = (q, some 503) := by
  have hf : q.full = true := by
    simp [AdmissionQueue.full]
    omega
  have hp : q.put_nowait x = none := by
    simp [AdmissionQueue.put_nowait, hf]
  exact ⟨hp, by simp [gatewayEnqueue, hp]⟩

theorem c3_full_queue_rejects_witness :
    (0 < (AdmissionQueue.mk [0, 1, 2, 3, 4] MAX_QUEUE_SIZE : AdmissionQueue Nat).maxsize ∧
      (AdmissionQueue.mk [0, 1, 2, 3, 4] MAX_QUEUE_SIZE : AdmissionQueue Nat).items.length =
        (AdmissionQueue.mk [0, 1, 2, 3, 4] MAX_QUEUE_SIZE : AdmissionQueue Nat).maxsize) ∧
    ((AdmissionQueue.mk [0, 1, 2, 3, 4] MAX_QUEUE_SIZE : AdmissionQueue Nat).put_nowait 9 =
        none ∧
      gatewayEnqueue (AdmissionQueue.mk [0, 1, 2, 3, 4] MAX_QUEUE_SIZE) 9 =
        (AdmissionQueue.mk [0, 1, 2, 3, 4] MAX_QUEUE_SIZE, some 503)) :=
  ⟨⟨by decide, by decide⟩,
    c3_full_queue_rejects Nat (AdmissionQueue.mk [0, 1, 2, 3, 4] MAX_QUEUE_SIZE) 9
      (by decide) (by decide)⟩

/-! ### At most one generation in flight (C2) -/

lemma gateStep_invariant (s : GateState) (e : GateEvent)
    (h : s.permits + s.generationsInFlight = 1) :
    (gateStep s e).permits + (gateStep s e).generationsInFlight = 1 := by
  cases e <;> simp only [gateStep] <;> split <;> (try simp) <;> omega

lemma gateRun_aux (events : List GateEvent) :
    ∀ s : GateState, s.permits + s.generationsInFlight = 1 →
      (events.foldl gateStep s).permits + (events.foldl gateStep s).generationsInFlight
        = 1 := by
  induction events with
  | nil => intro s h; simpa using h
  | cons e es ih =>
    intro s h
    simpa [List.foldl_cons] using ih (gateStep s e) (gateStep_invariant s e h)

/-- C2: at most one generation-engine invocation is in flight at any
instant.  Starting from the size-1 semaphore created at startup, after any
interleaving of acquire (`async with semaphore` before the engine call) and
release (after the call returns) transitions, the number of in-flight
generations never exceeds 1 — the free-permit count plus the in-flight
count is invariantly 1. -/
theorem c2_at_most_one_generation_in_flight (events : List GateEvent) :
    (gateRun events).generationsInFlight ≤ 1 := by
  have h := gateRun_aux events gateInit (by simp [gateInit])
  unfold gateRun
  omega

/-! ### Per-item failure isolation in the worker loop (C4) -/

/-- C4 counterexample: the claim says a malformed engine result — "not a
structured dict, or missing expected fields" — fails the item's handle with
a GenerationError.  But `answer.get('choices', [])` (api.py:70) defaults a
missing `choices` field to the empty list, so a dict without `choices`
resolves the handle successfully with the empty string instead of failing
it. -/
theorem c4_counterexample :
    processItem (fun _ => .returns (.dict none)) { messages := [], cancelled := false } =
      .resolved [] := by
  rfl

/-- C4 (amended): failures are isolated per work item.  If the engine
raises, the item's handle is failed with a GenerationError carrying the
error text; if the engine returns a non-dict, the handle is failed with the
unexpected-response error; if a choice's `message` dict lacks `content`,
the resulting `KeyError` fails the handle with that GenerationError; after
each failure the loop does not terminate and the remaining queued items are
dequeued and processed normally.  A dict missing the `choices` field (see
the counterexample) or a choice missing the `message` key is tolerated: the
choice is skipped and the handle is resolved with the remaining, possibly
empty, concatenation. -/
theorem c4_failures_isolated (engine : List Message → EngineAnswer)
    (item1 item2 item3 item4 : WorkItem) (rest : List WorkItem)
    (msg txt : List Char) (more3 : List Choice)
    (h1c : item1.cancelled = false) (h2c : item2.cancelled = false)
    (h3c : item3.cancelled = false) (h4c : item4.cancelled = false)
    (h1 : engine (truncate_messages_to_fit_context item1.messages MAX_CONTEXT_TOKENS) =
      .raises msg)
    (h2 : engine (truncate_messages_to_fit_context item2.messages MAX_CONTEXT_TOKENS) =
      .returns .nonDict)
    (h3 : engine (truncate_messages_to_fit_context item3.messages MAX_CONTEXT_TOKENS) =
      .returns (.dict (some (⟨some ⟨none⟩⟩ :: more3))))
    (h4 : engine (truncate_messages_to_fit_context item4.messages MAX_CONTEXT_TOKENS) =
      .returns (.dict (some [⟨none⟩, ⟨some ⟨some txt⟩⟩]))) :
    consumer engine (item1 :: item2 :: item3 :: item4 :: rest) =
      .failed (.engineRaised msg) :: .failed .unexpectedResponseType ::
        .failed .missingContentKey :: .resolved txt :: consumer engine rest := by
  simp [consumer, processItem, try_to_truncate_and_generate, collectResponse,
    Except.map, h1c, h2c, h3c, h4c, h1, h2, h3, h4]

theorem c4_failures_isolated_witness :
    (({ messages := [], cancelled := false } : WorkItem).cancelled = false ∧
      ({ messages := [⟨"u2", []⟩], cancelled := false } : WorkItem).cancelled = false ∧
      ({ messages := [⟨"u3", []⟩], cancelled := false } : WorkItem).cancelled = false ∧
      ({ messages := [⟨"u4", []⟩], cancelled := false } : WorkItem).cancelled = false ∧
      scenarioEngine
          (truncate_messages_to_fit_context
            ({ messages := [], cancelled := false } : WorkItem).messages
            MAX_CONTEXT_TOKENS) =
        EngineAnswer.raises ("boom".toList) ∧
      scenarioEngine
          (truncate_messages_to_fit_context
            ({ messages := [⟨"u2", []⟩], cancelled := false } : WorkItem).messages
            MAX_CONTEXT_TOKENS) =
        EngineAnswer.returns EngineValue.nonDict ∧
      scenarioEngine
          (truncate_messages_to_fit_context
            ({ messages := [⟨"u3", []⟩], cancelled := false } : WorkItem).messages
            MAX_CONTEXT_TOKENS) =
        EngineAnswer.returns (.dict (some (⟨some ⟨none⟩⟩ :: []))) ∧
      scenarioEngine
          (truncate_messages_to_fit_context
            ({ messages := [⟨"u4", []⟩], cancelled := false } : WorkItem).messages
            MAX_CONTEXT_TOKENS) =
        EngineAnswer.returns (.dict (some [⟨none⟩, ⟨some ⟨some ("ok".toList)⟩⟩]))) ∧
    consumer scenarioEngine
        ({ messages := [], cancelled := false } ::
          { messages := [⟨"u2", []⟩], cancelled := false } ::
          { messages := [⟨"u3", []⟩], cancelled := false } ::
          { messages := [⟨"u4", []⟩], cancelled := false } :: []) =
      HandleState.failed (.engineRaised ("boom".toList)) ::
        HandleState.failed .unexpectedResponseType ::
        HandleState.failed .missingContentKey ::
        HandleState.resolved ("ok".toList) ::
        consumer scenarioEngine [] :=
  ⟨⟨rfl, rfl, rfl, rfl, by decide, by decide, by decide, by decide⟩,
    c4_failures_isolated scenarioEngine
      { messages := [], cancelled := false }
      { messages := [⟨"u2", []⟩], cancelled := false }
      { messages := [⟨"u3", []⟩], cancelled := false }
      { messages := [⟨"u4", []⟩], cancelled := false } []
      ("boom".toList) ("ok".toList) []
      rfl rfl rfl rfl (by decide) (by decide) (by decide) (by decide)⟩

/-! ### No response after a timeout (C1) -/

lemma requestStep_cancelled_absorbing (s : RequestState) (e : GwEvent)
    (h : s.handle = .cancelled) : (requestStep s e).handle = .cancelled := by
  cases e <;> simp [requestStep, h]

lemma requestStep_outcome_stable (s : RequestState) (e : GwEvent) (o : GatewayOutcome)
    (h : s.outcome = some o) : (requestStep s e).outcome = some o := by
  cases e <;> cases hh : s.handle <;> simp [requestStep, h, hh]

lemma requestStep_write_noop (s : RequestState) (h : s.handle = .cancelled)
    (v : List Char) (f : GenFailure) :
    requestStep s (.workerSetResult v) = s ∧
      requestStep s (.workerSetException f) = s := by
  constructor <;> simp [requestStep, h]

lemma requestStep_timeout_cancelled (s : RequestState) (e : GwEvent)
    (hinv : s.outcome = some .timeout408 → s.handle = .cancelled) :
    (requestStep s e).outcome = some .timeout408 →
      (requestStep s e).handle = .cancelled := by
  cases hs : s.outcome with
  | some o =>
    intro hto
    rw [requestStep_outcome_stable s e o hs] at hto
    have ho : o = GatewayOutcome.timeout408 := by
      cases hto
      rfl
    exact requestStep_cancelled_absorbing s e (hinv (by rw [hs, ho]))
  | none =>
    rcases s with ⟨h0, o0⟩
    cases e <;> cases h0 <;> simp_all [requestStep]

lemma requestRun_inv_aux (events : List GwEvent) :
    ∀ s : RequestState, (s.outcome = some .timeout408 → s.handle = .cancelled) →
      ((events.foldl requestStep s).outcome = some .timeout408 →
        (events.foldl requestStep s).handle = .cancelled) := by
  induction events with
  | nil => intro s h; exact h
  | cons e es ih => intro s h; exact ih _ (requestStep_timeout_cancelled s e h)

lemma requestRun_keep_aux (more : List GwEvent) :
    ∀ s : RequestState, s.outcome = some .timeout408 → s.handle = .cancelled →
      (more.foldl requestStep s).outcome = some .timeout408 ∧
        (more.foldl requestStep s).handle = .cancelled := by
  induction more with
  | nil => intro s h1 h2; exact ⟨h1, h2⟩
  | cons e es ih =>
    intro s h1 h2
    exact ih (requestStep s e)
      (requestStep_outcome_stable s e _ h1)
      (requestStep_cancelled_absorbing s e h2)

/-- C1: no response is ever delivered to a caller after its deadline.  If
after some interleaving of events the caller has returned the timeout
outcome (HTTP 408), then after any further events whatsoever the caller's
outcome is still the timeout, the future is (and stays) cancelled, and a
worker resolve or fail attempted on it is the identity on the request state
— a silent no-op; moreover an item found cancelled at dequeue time is
skipped without invoking the engine, its handle left cancelled. -/
theorem c1_no_response_after_timeout (events more : List GwEvent)
    (v : List Char) (f : GenFailure)
    (engine : List Message → EngineAnswer) (msgs : List Message)
    (h : (requestRun events).outcome = some GatewayOutcome.timeout408) :
    (requestRun (events ++ more)).outcome = some GatewayOutcome.timeout408 ∧
    (requestRun (events ++ more)).handle = HandleState.cancelled ∧
    requestStep (requestRun (events ++ more)) (.workerSetResult v) =
      requestRun (events ++ more) ∧
    requestStep (requestRun (events ++ more)) (.workerSetException f) =
      requestRun (events ++ more) ∧
    processItem engine { messages := msgs, cancelled := true } = .cancelled := by
  have hc : (requestRun events).handle = HandleState.cancelled :=
    requestRun_inv_aux events requestInit (by simp [requestInit]) h
  have hsplit : requestRun (events ++ more) =
      more.foldl requestStep (requestRun events) := by
    simp [requestRun, List.foldl_append]
  obtain ⟨ho, hh⟩ := requestRun_keep_aux more (requestRun events) h hc
  rw [hsplit]
  obtain ⟨hw1, hw2⟩ := requestStep_write_noop _ hh v f
  exact ⟨ho, hh, hw1, hw2, rfl⟩

theorem c1_no_response_after_timeout_witness :
    (requestRun [GwEvent.timeoutFires]).outcome = some GatewayOutcome.timeout408 ∧
    ((requestRun ([GwEvent.timeoutFires] ++
          [GwEvent.workerSetResult ("hi".toList), GwEvent.resultArrives])).outcome =
        some GatewayOutcome.timeout408 ∧
      (requestRun ([GwEvent.timeoutFires] ++
          [GwEvent.workerSetResult ("hi".toList), GwEvent.resultArrives])).handle =
        HandleState.cancelled ∧
      requestStep
          (requestRun ([GwEvent.timeoutFires] ++
            [GwEvent.workerSetResult ("hi".toList), GwEvent.resultArrives]))
          (.workerSetResult ("hi".toList)) =
        requestRun ([GwEvent.timeoutFires] ++
          [GwEvent.workerSetResult ("hi".toList), GwEvent.resultArrives]) ∧
      requestStep
          (requestRun ([GwEvent.timeoutFires] ++
            [GwEvent.workerSetResult ("hi".toList), GwEvent.resultArrives]))
          (.workerSetException .unexpectedResponseType) =
        requestRun ([GwEvent.timeoutFires] ++
          [GwEvent.workerSetResult ("hi".toList), GwEvent.resultArrives]) ∧
      processItem (fun _ => EngineAnswer.returns EngineValue.nonDict)
          { messages := [], cancelled := true } =
        HandleState.cancelled) :=
  ⟨by decide,
    c1_no_response_after_timeout [GwEvent.timeoutFires]
      [GwEvent.workerSetResult ("hi".toList), GwEvent.resultArrives]
      ("hi".toList) .unexpectedResponseType
      (fun _ => EngineAnswer.returns EngineValue.nonDict) [] (by decide)⟩
